import Mathlib

/-!
Shallow embedding of `src/app.py` (a small Flask service around King Lear
scene files and an LLM "madness" analysis), built to check the claims of the
specification against the code.

Modelling conventions:
* JSON values are the inductive `Json` below; Python values decoded from JSON
  are represented by the same type, with `Json.null` playing Python `None`.
* The filesystem is a function from *resolved* POSIX path strings to file
  contents (`none` = no such file).  `normalizePath` models the lexical
  resolution of `.` and `..` components that the OS performs when a path is
  stat-ed or opened; the service itself never normalizes.
* The upstream LLM (`client.chat.completions.create` plus the
  `completion.choices[0].message.content` access) is an environment parameter
  of type `Llm`: it maps the prompt to either a transport-level failure
  (any exception raised while calling the provider, `Except.error`) or the
  raw response body string.
* `json.loads` is modelled by the executable parser `jsonLoads`.  It covers
  JSON objects, arrays, strings (with the common escapes), integer numbers,
  `true`/`false`/`null`; it does not model fractional/exponent number forms
  or `\u` escapes, which no claim exercises.
* A Flask handler either returns a `(status, body)` pair or lets a Python
  exception escape to the framework; handlers are therefore embedded as
  `Except String (Nat × Json)`, where `Except.error e` means the exception
  named `e` escaped the handler (the framework, not the handler, then builds
  the response).
-/

namespace LearApp

/-- JSON values (also used for the Python values that `json.loads` and
Flask's `request.get_json` produce; `null` doubles as Python `None`). -/
inductive Json where
  | null : Json
  | bool : Bool → Json
  | num : Int → Json
  | str : String → Json
  | arr : List Json → Json
  | obj : List (String × Json) → Json

/-- Python truthiness (`if x:`) of a JSON-decoded value: `None`, `False`,
`0`, `""`, `[]` and `\x7b\x7d` are falsy, everything else truthy. -/
def Json.truthy : Json → Bool
  | .null => false
  | .bool b => b
  | .num n => n != 0
  | .str s => s != ""
  | .arr l => !l.isEmpty
  | .obj l => !l.isEmpty

/-- Python `dict.get key`: the value stored under `key`, if any.  JSON
object fields are kept in source order; on duplicate keys `json.loads`
keeps the last one, hence the left fold. -/
def jsonGet (fields : List (String × Json)) (key : String) : Option Json :=
  fields.foldl (fun acc kv => if kv.1 == key then some kv.2 else acc) none

/-- A single-quote character, used when rendering Python string reprs. -/
def sq : String := String.singleton (Char.ofNat 39)

/-- Escaping used by Python `repr` on strings (single-quote style). -/
def pyEscape (s : String) : String :=
  String.join (s.data.map fun c =>
    if c = Char.ofNat 39 then "\\" ++ String.singleton (Char.ofNat 39)
    else if c = '\\' then "\\\\"
    else String.singleton c)

mutual

/-- Python `repr` of a JSON-decoded value (used by `str` on containers). -/
def pyRepr : Json → String
  | .null => "None"
  | .bool b => if b then "True" else "False"
  | .num n => toString n
  | .str s => sq ++ pyEscape s ++ sq
  | .arr l => "[" ++ pyReprList l ++ "]"
  | .obj l => "\x7b" ++ pyReprFields l ++ "\x7d"

/-- Comma-separated reprs of list elements. -/
def pyReprList : List Json → String
  | [] => ""
  | [v] => pyRepr v
  | v :: vs => pyRepr v ++ ", " ++ pyReprList vs

/-- Comma-separated `key: value` reprs of dict fields. -/
def pyReprFields : List (String × Json) → String
  | [] => ""
  | [kv] => sq ++ pyEscape kv.1 ++ sq ++ ": " ++ pyRepr kv.2
  | kv :: kvs => sq ++ pyEscape kv.1 ++ sq ++ ": " ++ pyRepr kv.2 ++ ", " ++ pyReprFields kvs

end

/-- Python `str` of a JSON-decoded value, as an f-string interpolation
(`f"Act \x7bact\x7d"`) renders it: strings verbatim, containers by repr. -/
def pyStr : Json → String
  | .str s => s
  | v => pyRepr v

/-- Python `str.isspace` on a single character (the set `str.strip`
removes): ASCII whitespace and control separators plus the Unicode space
separators. -/
def isPySpace (c : Char) : Bool :=
  c.toNat ∈ ([9, 10, 11, 12, 13, 28, 29, 30, 31, 32, 133, 160, 5760,
    8192, 8193, 8194, 8195, 8196, 8197, 8198, 8199, 8200, 8201, 8202,
    8232, 8233, 8239, 8287, 12288] : List Nat)

/-- Drop leading Python whitespace from a character list. -/
def dropPySpace : List Char → List Char
  | [] => []
  | c :: cs => if isPySpace c then dropPySpace cs else c :: cs

/-- Python `str.strip()` with no argument: remove leading and trailing
whitespace. -/
def pyStrip (s : String) : String :=
  String.mk ((dropPySpace (dropPySpace s.data).reverse).reverse)

/-- The filesystem: resolved POSIX path → file contents (`none` = absent). -/
def FS : Type := String → Option String

/-- One step of lexical path resolution over a reversed segment stack:
empty and `.` segments vanish, `..` pops the previous real segment (or is
kept when there is nothing left to pop in a relative path). -/
def normStep (stack : List String) (seg : String) : List String :=
  if seg = "" || seg = "." then stack
  else if seg = ".." then
    match stack with
    | [] => [".."]
    | top :: rest => if top = ".." then seg :: stack else rest
  else seg :: stack

/-- Split a character list into segments at `/` (accumulator holds the
current segment reversed). -/
def splitSegsAux : List Char → List Char → List String
  | cur, [] => [String.mk cur.reverse]
  | cur, c :: cs =>
    if c = '/' then String.mk cur.reverse :: splitSegsAux [] cs
    else splitSegsAux (c :: cur) cs

/-- The `/`-separated segments of a path string. -/
def pathSegs (p : String) : List String := splitSegsAux [] p.data

/-- Rejoin path segments with `/`. -/
def joinSegs : List String → String
  | [] => ""
  | [s] => s
  | s :: rest => s ++ "/" ++ joinSegs rest

/-- Lexical resolution of `.` and `..` components of a relative POSIX path,
as the OS performs when the path is stat-ed or opened. -/
def normalizePath (p : String) : String :=
  joinSegs (((pathSegs p).foldl normStep []).reverse)

/-- Whether resolved path `p` denotes `dir` itself or a file below it. -/
def isUnderDir (dir p : String) : Bool :=
  p == dir || (dir ++ "/").data.isPrefixOf p.data

/-- Constant `SCENE_DIR` of `app.py`. -/
def SCENE_DIR : String := "scenes"

/-- The filename interpolation of `load_scene_text`:
`f"lear_act\x7bact\x7d_scene\x7bscene\x7d.txt"`. -/
def sceneFileName (act scene : String) : String :=
  "lear_act" ++ act ++ "_scene" ++ scene ++ ".txt"

/-- The path `Path(SCENE_DIR) / filename` built by `load_scene_text`. -/
def scenePath (act scene : String) : String :=
  SCENE_DIR ++ "/" ++ sceneFileName act scene

/-- `load_scene_text` of `app.py`: checks `path.exists()` and returns
`path.read_text()`, raising `FileNotFoundError` (here `Except.error` with
the exact message) when the file is absent.  Existence and reading consult
the filesystem at the resolved path, as `stat`/`open` do. -/
def load_scene_text (fs : FS) (act scene : String) : Except String String :=
  match fs (normalizePath (scenePath act scene)) with
  | some t => .ok t
  | none => .error ("No scene file: " ++ scenePath act scene)

/-- The JSON error bodies `jsonify({"error": msg})` of `app.py`. -/
def jsonError (msg : String) : Json := .obj [("error", .str msg)]

/-- Handler `api_scene` of `app.py` (`GET /api/scene`).  The two query
parameters arrive as `request.args.get`, i.e. `none` when absent; the guard
`if not act or not scene` treats absent and empty alike.  Every exception
of the body is caught (`FileNotFoundError` → 404, anything else → 500), so
the handler always returns a response; in this model, where the only
filesystem failure is absence, the 500 branch is unreachable. -/
def api_scene (fs : FS) (act scene : Option String) : Nat × Json :=
  match act, scene with
  | some a, some s =>
    if a = "" || s = "" then (400, jsonError "act and scene are required")
    else
      match load_scene_text fs a s with
      | .ok t => (200, .obj [("text", .str t)])
      | .error msg => (404, jsonError msg)
  | _, _ => (400, jsonError "act and scene are required")

/-! The prompt template of `analyze_with_gpt` (the f-string of `app.py`
lines 53–95), split at the two interpolation points `\x7bcontext_str\x7d`
and `\x7btext\x7d`.  Apostrophes of the original text are spliced in via
`sq`. -/

/-- Template text before the `\x7bcontext_str\x7d` interpolation. -/
def promptPart1 : String :=
  "\nYou are a literary critic and linguistics assistant analyzing **psychological madness** in Shakespeare"
  ++ sq ++ "s *King Lear*.\n\n"

/-- Template text between `\x7bcontext_str\x7d` and `\x7btext\x7d` (the
latter sits between two literal `\"\"\"` fences). -/
def promptPart2 : String :=
  "\nYour job is to rate the **mental / emotional disturbance of the speaker**, not just how broken the syntax looks.\n"
  ++ "\nKey idea:\n"
  ++ "- In *King Lear*, a speaker can sound controlled, formal, and rhetorically polished **and still be very mad** if their judgment is warped, cruel, impulsive, or detached from reality.\n"
  ++ "- If you recognize Lear speaking (e.g. dividing the kingdom, cursing his daughters, raging in the storm, or philosophizing on the heath), you should usually assign a **high madness_score**, often 70+.\n"
  ++ "- Storm / heath / hut scenes in Acts 3–4 where Lear" ++ sq ++ "s mind openly unravels can deserve **very high** scores (80–100).\n"
  ++ "- Other characters (Cordelia, Kent, etc.) can have low scores if they sound clear, grounded, and compassionate.\n"
  ++ "\nYou will output:\n"
  ++ "1. An overall **madness_score** (0–100), where:\n"
  ++ "   - 0 = mentally stable, balanced, clear judgment\n"
  ++ "   - 100 = extremely disturbed, unstable, or unmoored\n"
  ++ "\n2. Three sub-scores in [0,1] that *explain* the flavor of madness.\n"
  ++ "   They are interpretive dimensions, not strict mathematical measures:\n"
  ++ "\n- semantic_disorganization:\n"
  ++ "  * Higher = bigger jumps in thought, conflicting images, weak logical progression.\n"
  ++ "  * For controlled but mad Lear, this can still be moderate–high (e.g. 0.5–0.8) if the content is emotionally or morally deranged.\n"
  ++ "\n- graph_randomness:\n"
  ++ "  * Higher = more tangled flow of ideas, looping back, abrupt transitions, or piling up of images.\n"
  ++ "\n- lexical_weirdness:\n"
  ++ "  * Higher = strange or theatrical pronoun use, vocatives, curses, heavy questions/exclamations, and emotionally charged diction.\n"
  ++ "\nUse your knowledge of the play and of Lear" ++ sq ++ "s arc. The numbers are just a way to encode your critical judgment.\n"
  ++ "\nNow analyze this passage:\n"
  ++ "\n\"\"\""

/-- Template text after the `\x7btext\x7d` interpolation. -/
def promptPart3 : String :=
  "\"\"\"\n"
  ++ "\nReturn ONLY a JSON object with these keys:\n"
  ++ "- \"madness_score\" (number 0–100)\n"
  ++ "- \"semantic_disorganization\" (number 0–1)\n"
  ++ "- \"graph_randomness\" (number 0–1)\n"
  ++ "- \"lexical_weirdness\" (number 0–1)\n"
  ++ "- \"comment\" (short 1–3 sentence explanation)\n"

/-- The `context_bits` list of `analyze_with_gpt`: one entry per supplied
truthy identifier, `act` first.  `Json.null` plays the `None` default. -/
def contextBits (act scene : Json) : List String :=
  (if act.truthy then ["Act " ++ pyStr act] else [])
  ++ (if scene.truthy then ["Scene " ++ pyStr scene] else [])

/-- The `context_str` of `analyze_with_gpt`: empty when no identifier was
supplied, otherwise the comma-joined context line with trailing newline. -/
def context_str (act scene : Json) : String :=
  let bits := contextBits act scene
  if bits.isEmpty then ""
  else "Context: this passage is from King Lear, " ++ String.intercalate ", " bits ++ ".\n"

/-- The full prompt string built inside `analyze_with_gpt` (the Prompt
Builder component of the specification). -/
def buildPrompt (text : String) (act scene : Json) : String :=
  promptPart1 ++ context_str act scene ++ promptPart2 ++ text ++ promptPart3

/-! Model of `json.loads`: an executable recursive-descent JSON parser. -/

/-- Skip JSON whitespace. -/
def skipWs : List Char → List Char
  | [] => []
  | c :: cs => if c = ' ' || c = '\t' || c = '\n' || c = '\r' then skipWs cs else c :: cs

/-- Collect a maximal run of decimal digits (accumulator is reversed). -/
def takeDigits : List Char → List Char → List Char × List Char
  | acc, [] => (acc.reverse, [])
  | acc, c :: cs => if c.isDigit then takeDigits (c :: acc) cs else (acc.reverse, c :: cs)

/-- Digit list to the number it denotes. -/
def digitsToNat (ds : List Char) : Nat :=
  ds.foldl (fun n c => n * 10 + (c.toNat - 48)) 0

/-- Parse the remainder of a JSON string literal (the opening quote already
consumed), handling the one-character escapes.  `\u` escapes and
fraction/exponent forms are outside this model. -/
def parseStringRest (acc : List Char) : List Char → Option (String × List Char)
  | [] => none
  | '"' :: rest => some (String.mk acc.reverse, rest)
  | '\\' :: e :: rest =>
    if e = '"' ∨ e = '\\' ∨ e = '/' then parseStringRest (e :: acc) rest
    else if e = 'n' then parseStringRest ('\n' :: acc) rest
    else if e = 't' then parseStringRest ('\t' :: acc) rest
    else if e = 'r' then parseStringRest ('\r' :: acc) rest
    else if e = 'b' then parseStringRest (Char.ofNat 8 :: acc) rest
    else if e = 'f' then parseStringRest (Char.ofNat 12 :: acc) rest
    else none
  | '\\' :: [] => none
  | c :: rest => parseStringRest (c :: acc) rest

mutual

/-- Parse one JSON value; `fuel` bounds the nesting depth. -/
def parseVal : Nat → List Char → Option (Json × List Char)
  | 0, _ => none
  | fuel + 1, cs =>
    match skipWs cs with
    | 'n' :: 'u' :: 'l' :: 'l' :: rest => some (.null, rest)
    | 't' :: 'r' :: 'u' :: 'e' :: rest => some (.bool true, rest)
    | 'f' :: 'a' :: 'l' :: 's' :: 'e' :: rest => some (.bool false, rest)
    | '"' :: rest => (parseStringRest [] rest).map fun sr => (.str sr.1, sr.2)
    | '[' :: rest =>
      (match skipWs rest with
       | ']' :: rest1 => some (.arr [], rest1)
       | other => parseArrElems fuel other [])
    | '\x7b' :: rest =>
      (match skipWs rest with
       | '\x7d' :: rest1 => some (.obj [], rest1)
       | other => parseObjFields fuel other [])
    | '-' :: c :: rest =>
      if c.isDigit then
        match takeDigits [c] rest with
        | (ds, rest1) => some (.num (-(digitsToNat ds : Int)), rest1)
      else none
    | c :: rest =>
      if c.isDigit then
        match takeDigits [c] rest with
        | (ds, rest1) => some (.num (digitsToNat ds : Int), rest1)
      else none
    | [] => none

/-- Parse the elements of a non-empty JSON array. -/
def parseArrElems : Nat → List Char → List Json → Option (Json × List Char)
  | 0, _, _ => none
  | fuel + 1, cs, acc =>
    match parseVal fuel cs with
    | none => none
    | some (v, rest) =>
      match skipWs rest with
      | ',' :: rest1 => parseArrElems fuel rest1 (v :: acc)
      | ']' :: rest1 => some (.arr (v :: acc).reverse, rest1)
      | _ => none

/-- Parse the fields of a non-empty JSON object. -/
def parseObjFields : Nat → List Char → List (String × Json) → Option (Json × List Char)
  | 0, _, _ => none
  | fuel + 1, cs, acc =>
    match skipWs cs with
    | '"' :: rest =>
      (match parseStringRest [] rest with
       | none => none
       | some (k, rest1) =>
         match skipWs rest1 with
         | ':' :: rest2 =>
           (match parseVal fuel rest2 with
            | none => none
            | some (v, rest3) =>
              match skipWs rest3 with
              | ',' :: rest4 => parseObjFields fuel rest4 ((k, v) :: acc)
              | '\x7d' :: rest4 => some (.obj ((k, v) :: acc).reverse, rest4)
              | _ => none)
         | _ => none)
    | _ => none

end

/-- Model of `json.loads content`: parse one value, require only
whitespace after it; `none` models a raised `JSONDecodeError` (or the
`TypeError` when `content` is `None`, folded into the same failure). -/
def jsonLoads (s : String) : Option Json :=
  match parseVal (s.length + 1) s.data with
  | some (v, rest) => if (skipWs rest).isEmpty then some v else none
  | none => none

/-- The upstream LLM boundary: prompt → transport failure or raw response
body (everything `app.py` does between `client.chat.completions.create`
and reading `message.content`). -/
def Llm : Type := String → Except Unit String

/-- `analyze_with_gpt` of `app.py`: build the prompt, call the provider,
`json.loads` the body.  Any provider failure, and any body that does not
parse as JSON, is an exception (`Except.error`); the caller gets the parsed
value otherwise, with no shape validation. -/
def analyze_with_gpt (llm : Llm) (text : String) (act scene : Json) : Except Unit Json :=
  match llm (buildPrompt text act scene) with
  | .error e => .error e
  | .ok content =>
    match jsonLoads content with
    | some data => .ok data
    | none => .error ()

/-- Handler `api_analyze` of `app.py` (`POST /api/analyze`).  `body` is the
outcome of `request.get_json(force=True)`: `none` when the request body is
not valid JSON, in which case Flask raises `BadRequest` *inside the
handler, before the try block*, and the exception escapes.  Likewise
`payload.get` on a non-dict payload and `.strip()` on a non-string `text`
value raise `AttributeError` outside the try block.  Only the
`analyze_with_gpt` call is guarded, mapping every failure to a 500. -/
def api_analyze (llm : Llm) (body : Option Json) : Except String (Nat × Json) :=
  match body with
  | none => .error "BadRequest"
  | some payload =>
    match payload with
    | .obj fields =>
      match (jsonGet fields "text").getD (.str "") with
      | .str raw =>
        let text := pyStrip raw
        if text = "" then .ok (400, jsonError "No text provided.")
        else
          match analyze_with_gpt llm text ((jsonGet fields "act").getD .null)
              ((jsonGet fields "scene").getD .null) with
          | .ok result => .ok (200, result)
          | .error _ => .ok (500, jsonError "GPT analysis failed.")
      | _ => .error "AttributeError"
    | _ => .error "AttributeError"

/-- Whether a JSON value is an object. -/
def isJsonObj : Json → Bool
  | .obj _ => true
  | _ => false

/-- Shape of the error bodies the facade produces. -/
def isErrorBody : Json → Bool
  | .obj [("error", .str _)] => true
  | _ => false

/-- Shape of the success body of `GET /api/scene`. -/
def isTextBody : Json → Bool
  | .obj [("text", .str _)] => true
  | _ => false

/-- Whether an `/api/scene` response is a JSON body under the documented
taxonomy: 200 with a `text` object, or 400/404 with an `error` object. -/
def sceneResponseOk : Nat × Json → Bool
  | (status, body) =>
    (status == 200 && isTextBody body)
      || ((status == 400 || status == 404) && isErrorBody body)

/-- Whether an `/api/analyze` outcome is a JSON response produced by the
handler itself, with a taxonomy status: 200 (any passed-through JSON), or
400/500 with an `error` object.  An escaped exception is not such a
response. -/
def facadeJsonResponse : Except String (Nat × Json) → Bool
  | .error _ => false
  | .ok (status, body) =>
    (status == 200) || ((status == 400 || status == 500) && isErrorBody body)

/-- The request bodies on which the `api_analyze` handler runs to
completion instead of raising: a JSON object whose `text` field is either
absent or a string. -/
def handlerCompletes : Option Json → Bool
  | some (.obj fields) =>
    (match (jsonGet fields "text").getD (.str "") with
     | .str _ => true
     | _ => false)
  | _ => false

/-! Helper lemmas shared by the claim theorems. -/

/-- The character data of the built prompt, split at the `text`
interpolation point. -/
theorem buildPrompt_data (text : String) (act scene : Json) :
    (buildPrompt text act scene).data
      = (promptPart1 ++ context_str act scene ++ promptPart2).data
          ++ text.data ++ promptPart3.data := by
  simp [buildPrompt, String.data_append]

/-- The first character of the built prompt is the template's leading
newline. -/
theorem buildPrompt_head (text : String) (act scene : Json) :
    (buildPrompt text act scene).data.head? = some (Char.ofNat 10) := rfl

/-- With a truthy `act` and no `scene`, `context_str` is the Act context
line. -/
theorem context_str_act (a : String) (ha : a ≠ "") :
    context_str (.str a) .null
      = "Context: this passage is from King Lear, " ++ ("Act " ++ a) ++ ".\n" := by
  have ht : Json.truthy (.str a) = true := by simp [Json.truthy, ha]
  simp [context_str, contextBits, ht, ha, Json.truthy, pyStr,
    String.intercalate, String.intercalate.go]

/-- With a truthy `scene` and no `act`, `context_str` is the Scene context
line. -/
theorem context_str_scene (s : String) (hs : s ≠ "") :
    context_str .null (.str s)
      = "Context: this passage is from King Lear, " ++ ("Scene " ++ s) ++ ".\n" := by
  have ht : Json.truthy (.str s) = true := by simp [Json.truthy, hs]
  simp [context_str, contextBits, ht, hs, Json.truthy, pyStr,
    String.intercalate, String.intercalate.go]

/-! Claim theorems. -/

/-- Claim C3: for every existing scene file, `GET /api/scene` with the
matching identifiers answers 200 with exactly the file's contents in the
`text` field of the JSON body (byte-for-byte round trip). -/
theorem C3_scene_roundtrip (fs : FS) (act scene content : String)
    (ha : act ≠ "") (hs : scene ≠ "")
    (hfile : fs (normalizePath (scenePath act scene)) = some content) :
    api_scene fs (some act) (some scene) = (200, .obj [("text", .str content)]) := by
  simp [api_scene, ha, hs, load_scene_text, hfile]

/-- Witness for C3 at a concrete filesystem and identifiers. -/
theorem C3_scene_roundtrip_witness :
    api_scene (fun p => if p = "scenes/lear_act1_scene2.txt" then some "Blow, winds" else none)
        (some "1") (some "2")
      = (200, .obj [("text", .str "Blow, winds")]) :=
  C3_scene_roundtrip _ "1" "2" "Blow, winds" (by decide) (by decide) (by rfl)

/-- Claim C4: `load_scene_text` builds exactly the path
`scenes/lear_act<act>_scene<scene>.txt`, returns the file contents when
resolution finds the file, and fails with the `FileNotFoundError` message
exactly when it does not. -/
theorem C4_load_scene_text_contract (fs : FS) (act scene : String) :
    scenePath act scene = "scenes/" ++ ("lear_act" ++ act ++ "_scene" ++ scene ++ ".txt")
    ∧ (∀ t, load_scene_text fs act scene = .ok t
        ↔ fs (normalizePath (scenePath act scene)) = some t)
    ∧ (load_scene_text fs act scene = .error ("No scene file: " ++ scenePath act scene)
        ↔ fs (normalizePath (scenePath act scene)) = none) := by
  refine ⟨rfl, ?_, ?_⟩ <;>
    cases h : fs (normalizePath (scenePath act scene)) <;>
      simp [load_scene_text, h]

/-- Claim C5: a request whose JSON object body has no `text` field, or a
string `text` that strips to empty, is answered 400 with the fixed error
body; the result does not depend on the Analysis Client (`llm` is
universally quantified and never consulted). -/
theorem C5_blank_text_rejected (llm : Llm) (fields : List (String × Json))
    (h : jsonGet fields "text" = none
       ∨ ∃ s, jsonGet fields "text" = some (.str s) ∧ pyStrip s = "") :
    api_analyze llm (some (.obj fields)) = .ok (400, jsonError "No text provided.") := by
  rcases h with h | ⟨s, hs, hblank⟩
  · simp [api_analyze, h, pyStrip, dropPySpace]
  · simp [api_analyze, hs, hblank]

/-- Witness for C5: missing `text` field, with an Analysis Client that
would answer successfully if it were called. -/
theorem C5_blank_text_rejected_witness :
    api_analyze (fun _ => .ok "nonsense") (some (.obj []))
      = .ok (400, jsonError "No text provided.") :=
  C5_blank_text_rejected _ [] (Or.inl rfl)

/-- Claim C6: supplied (non-blank) identifiers naming an absent scene file
are answered 404, with an error message that contains the missing path. -/
theorem C6_missing_scene_404 (fs : FS) (act scene : String)
    (ha : act ≠ "") (hs : scene ≠ "")
    (hmissing : fs (normalizePath (scenePath act scene)) = none) :
    api_scene fs (some act) (some scene)
      = (404, jsonError ("No scene file: " ++ scenePath act scene))
    ∧ (scenePath act scene).data <:+: ("No scene file: " ++ scenePath act scene).data := by
  constructor
  · simp [api_scene, ha, hs, load_scene_text, hmissing]
  · exact ⟨"No scene file: ".data, [], by simp [String.data_append]⟩

/-- Witness for C6 on an empty filesystem at act 3, scene 4. -/
theorem C6_missing_scene_404_witness :
    api_scene (fun _ => none) (some "3") (some "4")
      = (404, jsonError ("No scene file: " ++ scenePath "3" "4"))
    ∧ (scenePath "3" "4").data <:+: ("No scene file: " ++ scenePath "3" "4").data :=
  C6_missing_scene_404 (fun _ => none) "3" "4" (by decide) (by decide) rfl

/-- Claim C7: for every input text and every combination of act/scene
values, the built prompt is non-empty and contains the text as a
contiguous substring. -/
theorem C7_prompt_contains_text (text : String) (act scene : Json) :
    buildPrompt text act scene ≠ ""
    ∧ text.data <:+: (buildPrompt text act scene).data := by
  constructor
  · intro h
    have h1 := buildPrompt_head text act scene
    rw [h] at h1
    exact absurd h1 (by decide)
  · exact ⟨(promptPart1 ++ context_str act scene ++ promptPart2).data,
      promptPart3.data, (buildPrompt_data text act scene).symm⟩

/-- Claim C10: `GET /api/scene` answers 400 when either parameter is
absent, and equally when either is present with an empty value. -/
theorem C10_blank_param_400 (fs : FS) (act scene : Option String) (a : String) :
    api_scene fs none scene = (400, jsonError "act and scene are required")
    ∧ api_scene fs act none = (400, jsonError "act and scene are required")
    ∧ api_scene fs (some "") scene = (400, jsonError "act and scene are required")
    ∧ api_scene fs (some a) (some "") = (400, jsonError "act and scene are required") := by
  refine ⟨rfl, ?_, ?_, ?_⟩
  · cases act <;> rfl
  · cases scene <;> rfl
  · simp [api_scene]

/-- Claim C1 (counterexample): a `POST /api/analyze` request whose JSON
body maps `text` to a number makes the handler raise `AttributeError`
outside its try block, and a non-JSON body makes `request.get_json(force=True)`
raise `BadRequest` there; both escape the facade instead of being converted
to a taxonomy-status JSON error body. -/
theorem C1_error_containment_counterexample :
    api_analyze (fun _ => .error ()) (some (.obj [("text", .num 42)]))
      = .error "AttributeError"
    ∧ api_analyze (fun _ => .error ()) none = .error "BadRequest" :=
  ⟨rfl, rfl⟩

/-- Claim C1 (amended): `GET /api/scene` always yields a taxonomy-status
JSON response; `POST /api/analyze` yields one exactly when the request
body is a JSON object whose `text` field is absent or a string — other
bodies make the handler raise, leaving the response to the framework. -/
theorem C1_error_containment_amended :
    (∀ (fs : FS) (act scene : Option String),
      sceneResponseOk (api_scene fs act scene) = true)
    ∧ (∀ (llm : Llm) (body : Option Json),
      facadeJsonResponse (api_analyze llm body) = handlerCompletes body) := by
  constructor
  · intro fs act scene
    cases act with
    | none => rfl
    | some a =>
      cases scene with
      | none => rfl
      | some s =>
        rcases eq_or_ne a "" with ha | ha
        · simp [api_scene, ha, sceneResponseOk, isErrorBody, jsonError]
        · rcases eq_or_ne s "" with hs | hs
          · simp [api_scene, ha, hs, sceneResponseOk, isErrorBody, jsonError]
          · cases hfs : fs (normalizePath (scenePath a s)) with
            | none =>
              simp [api_scene, ha, hs, load_scene_text, hfs, sceneResponseOk,
                isErrorBody, jsonError]
            | some t =>
              simp [api_scene, ha, hs, load_scene_text, hfs, sceneResponseOk,
                isTextBody]
  · intro llm body
    cases body with
    | none => rfl
    | some payload =>
      cases payload with
      | null => rfl
      | bool b => rfl
      | num n => rfl
      | str s => rfl
      | arr l => rfl
      | obj fields =>
        cases hv : (jsonGet fields "text").getD (.str "") with
        | str raw =>
          rcases eq_or_ne (pyStrip raw) "" with hb | hb
          · simp [api_analyze, handlerCompletes, hv, hb, facadeJsonResponse,
              isErrorBody, jsonError]
          · cases hr : analyze_with_gpt llm (pyStrip raw)
                ((jsonGet fields "act").getD .null)
                ((jsonGet fields "scene").getD .null) with
            | ok r =>
              simp [api_analyze, handlerCompletes, hv, hb, hr, facadeJsonResponse]
            | error e =>
              simp [api_analyze, handlerCompletes, hv, hb, hr, facadeJsonResponse,
                isErrorBody, jsonError]
        | null => simp [api_analyze, handlerCompletes, hv, facadeJsonResponse]
        | bool b => simp [api_analyze, handlerCompletes, hv, facadeJsonResponse]
        | num n => simp [api_analyze, handlerCompletes, hv, facadeJsonResponse]
        | arr l => simp [api_analyze, handlerCompletes, hv, facadeJsonResponse]
        | obj kvs => simp [api_analyze, handlerCompletes, hv, facadeJsonResponse]

/-- Claim C2 (counterexample): the provider body `"42"` parses as JSON but
not as a JSON object, yet the service passes it through as a 200 success
instead of treating it as an UpstreamFailure (500). -/
theorem C2_json_object_check_counterexample :
    api_analyze (fun _ => .ok "42") (some (.obj [("text", .str "hello")]))
      = .ok (200, .num 42)
    ∧ isJsonObj (.num 42) = false :=
  ⟨rfl, rfl⟩

/-- Claim C2 (amended): on a well-formed analyze request, a provider body
that parses as JSON — any JSON value, objectness is not checked — is
passed through as 200; a body that does not parse, like a transport
failure, yields the generic 500, with no further field validation. -/
theorem C2_json_passthrough_amended (content : String)
    (fields : List (String × Json)) (s : String)
    (hs : jsonGet fields "text" = some (.str s)) (hne : pyStrip s ≠ "") :
    (api_analyze (fun _ => .ok content) (some (.obj fields))
        = match jsonLoads content with
          | some v => .ok (200, v)
          | none => .ok (500, jsonError "GPT analysis failed."))
    ∧ api_analyze (fun _ => .error ()) (some (.obj fields))
        = .ok (500, jsonError "GPT analysis failed.") := by
  constructor
  · cases hj : jsonLoads content <;>
      simp [api_analyze, hs, hne, analyze_with_gpt, hj]
  · simp [api_analyze, hs, hne, analyze_with_gpt]

/-- Witness for C2 (amended) at a concrete request and the non-object
provider body `"[1, 2]"`, which is passed through as a 200. -/
theorem C2_json_passthrough_amended_witness :
    api_analyze (fun _ => .ok "[1, 2]") (some (.obj [("text", .str "hi")]))
      = .ok (200, .arr [.num 1, .num 2]) := by
  have h := (C2_json_passthrough_amended "[1, 2]" [("text", .str "hi")] "hi"
    rfl (by decide)).1
  exact h.trans (by rfl)

/-- Claim C8: identifiers are interpolated unsanitized, so a scene value
with `..` components resolves outside the scenes directory, and
`GET /api/scene` serves that outside file's contents when it exists. -/
theorem C8_path_traversal :
    normalizePath (scenePath "1" "x/../../../secret") = "../secret.txt"
    ∧ isUnderDir "scenes" (normalizePath (scenePath "1" "x/../../../secret")) = false
    ∧ ∀ (fs : FS) (content : String), fs "../secret.txt" = some content →
        api_scene fs (some "1") (some "x/../../../secret")
          = (200, .obj [("text", .str content)]) := by
  refine ⟨rfl, rfl, ?_⟩
  intro fs content h
  have hp : fs (normalizePath (scenePath "1" "x/../../../secret")) = some content := h
  simp [api_scene, load_scene_text, hp]

/-- Witness for C8: a filesystem holding a file outside the scenes
directory, served through the endpoint. -/
theorem C8_path_traversal_witness :
    api_scene (fun p => if p = "../secret.txt" then some "TOP SECRET" else none)
        (some "1") (some "x/../../../secret")
      = (200, .obj [("text", .str "TOP SECRET")]) :=
  C8_path_traversal.2.2 _ "TOP SECRET" (by rfl)

/-- Claim C9: the context line is assembled per identifier — act alone
yields the Act line, scene alone the Scene line, and empty-string
identifiers behave exactly like absent ones. -/
theorem C9_context_line (text a s : String) (ha : a ≠ "") (hs : s ≠ "") :
    ("Context: this passage is from King Lear, Act " ++ a ++ ".\n").data
        <:+: (buildPrompt text (.str a) .null).data
    ∧ ("Context: this passage is from King Lear, Scene " ++ s ++ ".\n").data
        <:+: (buildPrompt text .null (.str s)).data
    ∧ buildPrompt text (.str "") (.str "") = buildPrompt text .null .null := by
  refine ⟨?_, ?_, rfl⟩
  · refine ⟨promptPart1.data, (promptPart2 ++ text ++ promptPart3).data, ?_⟩
    have h1 : ("Context: this passage is from King Lear, Act " ++ a ++ ".\n")
        = "Context: this passage is from King Lear, " ++ ("Act " ++ a) ++ ".\n" := rfl
    rw [h1]
    unfold buildPrompt
    rw [context_str_act a ha]
    simp [String.data_append]
  · refine ⟨promptPart1.data, (promptPart2 ++ text ++ promptPart3).data, ?_⟩
    have h1 : ("Context: this passage is from King Lear, Scene " ++ s ++ ".\n")
        = "Context: this passage is from King Lear, " ++ ("Scene " ++ s) ++ ".\n" := rfl
    rw [h1]
    unfold buildPrompt
    rw [context_str_scene s hs]
    simp [String.data_append]

/-- Witness for C9 at concrete text and identifiers. -/
theorem C9_context_line_witness :
    ("Context: this passage is from King Lear, Act " ++ "1" ++ ".\n").data
        <:+: (buildPrompt "Blow, winds" (.str "1") .null).data
    ∧ ("Context: this passage is from King Lear, Scene " ++ "2" ++ ".\n").data
        <:+: (buildPrompt "Blow, winds" .null (.str "2")).data
    ∧ buildPrompt "Blow, winds" (.str "") (.str "")
        = buildPrompt "Blow, winds" .null .null :=
  C9_context_line "Blow, winds" "1" "2" (by decide) (by decide)

end LearApp

